import Mathlib

/-!
Shallow embedding of the health-tracker pipeline
(src/app/core/utils.py, src/app/core/metrics.py, src/app/core/collector.py).

Numeric values are modelled as rationals; Python `None` / an absent JSON
field is `Option.none`.  Python falsiness of a numeric value (`not x`)
holds exactly for `none` and `some 0`; falsiness of a string holds for
`None` and the empty string.
-/

namespace HealthTracker

/-- Python `round(x, ndigits)` uses round-half-to-even on the scaled value.
`roundHalfEven q` is the integer nearest to `q`, ties going to the even
integer. -/
def roundHalfEven (q : ℚ) : ℤ :=
  let f : ℤ := ⌊q⌋
  let frac : ℚ := q - f
  if frac < 1/2 then f
  else if 1/2 < frac then f + 1
  else if f % 2 = 0 then f else f + 1

/-- Python `round(x, 1)` over rationals. -/
def round1 (q : ℚ) : ℚ := (roundHalfEven (q * 10) : ℚ) / 10

/-- Python `round(x, 2)` over rationals. -/
def round2 (q : ℚ) : ℚ := (roundHalfEven (q * 100) : ℚ) / 100

/-- utils.validate_water_intake: `if not water_intake or water_intake < 0:
return None` then `return round(water_intake, 2)`. -/
def validate_water_intake (water_intake : Option ℚ) : Option ℚ :=
  match water_intake with
  | none => none
  | some x => if x = 0 ∨ x < 0 then none else some (round2 x)

/-- utils.validate_sleep_duration: `if not sleep_hours or sleep_hours < 0 or
sleep_hours > 24: return None` then `return round(sleep_hours, 1)`. -/
def validate_sleep_duration (sleep_hours : Option ℚ) : Option ℚ :=
  match sleep_hours with
  | none => none
  | some x => if x = 0 ∨ x < 0 ∨ 24 < x then none else some (round1 x)

/-- utils.calculate_bmi (identical to HealthTracker.calculate_bmi in
collector.py): `if not weight_kg or not height_cm: return None`, else
`height_m = height_cm / 100; bmi = weight_kg / (height_m ** 2);
return round(bmi, 1)`.  With the falsy guard passed, the divisor is
nonzero, so the `ZeroDivisionError` handler is unreachable under exact
rational semantics and the function is total. -/
def calculate_bmi (weight_kg height_cm : Option ℚ) : Option ℚ :=
  match weight_kg, height_cm with
  | some w, some h =>
      if w = 0 ∨ h = 0 then none
      else some (round1 (w / (h / 100) ^ 2))
  | _, _ => none

/-- A proleptic-Gregorian calendar date, as in Python `datetime.date`. -/
structure Date where
  year : ℕ
  month : ℕ
  day : ℕ
deriving DecidableEq, Repr

/-- Gregorian leap-year rule. -/
def isLeap (y : ℕ) : Bool := y % 4 = 0 && (y % 100 ≠ 0 || y % 400 = 0)

/-- Days in a month of a given year. -/
def daysInMonth (y m : ℕ) : ℕ :=
  if m = 2 then (if isLeap y then 29 else 28)
  else if m = 4 ∨ m = 6 ∨ m = 9 ∨ m = 11 then 30
  else 31

/-- Days in the years strictly before year `y` (year 1 is the first). -/
def daysBeforeYear (y : ℕ) : ℕ :=
  (y - 1) * 365 + (y - 1) / 4 - (y - 1) / 100 + (y - 1) / 400

/-- Days in the months of year `y` strictly before month `m`. -/
def daysBeforeMonth (y m : ℕ) : ℕ :=
  (List.range (m - 1)).foldl (fun acc i => acc + daysInMonth y (i + 1)) 0

/-- Python `date.toordinal`: day number of the date in the proleptic
Gregorian calendar, with 0001-01-01 having ordinal 1. -/
def toOrdinal (d : Date) : ℕ :=
  daysBeforeYear d.year + daysBeforeMonth d.year d.month + d.day

/-- Split a character list on the hyphen separator (the literal `-` of the
`%Y-%m-%d` format string). -/
def splitOnDash (cs : List Char) : List (List Char) :=
  match cs with
  | [] => [[]]
  | c :: rest =>
      match splitOnDash rest with
      | [] => [[c]]
      | p :: ps => if c = '-' then [] :: p :: ps else (c :: p) :: ps

/-- Numeric value of a list of decimal digit characters (Python `int`). -/
def digitsVal (cs : List Char) : ℕ :=
  cs.foldl (fun a c => a * 10 + (c.toNat - 48)) 0

/-- `datetime.strptime(s, "%Y-%m-%d").date()`: the year is exactly four
digits, month and day are one or two digits, the three parts are separated
by literal hyphens with nothing left over, and the resulting triple must
form a valid `datetime.date` (month 1..12, day within the month, year at
least `MINYEAR = 1`).  Returns `none` where strptime raises `ValueError`. -/
def strptimeYmd (s : String) : Option Date :=
  match splitOnDash s.toList with
  | [ys, ms, ds] =>
      if ys.length = 4 ∧ ys.all Char.isDigit ∧
         1 ≤ ms.length ∧ ms.length ≤ 2 ∧ ms.all Char.isDigit ∧
         1 ≤ ds.length ∧ ds.length ≤ 2 ∧ ds.all Char.isDigit then
        let y := digitsVal ys
        let m := digitsVal ms
        let d := digitsVal ds
        if 1 ≤ y ∧ 1 ≤ m ∧ m ≤ 12 ∧ 1 ≤ d ∧ d ≤ daysInMonth y m then
          some ⟨y, m, d⟩
        else none
      else none
  | _ => none

/-- utils.calculate_age (identical to HealthTracker.calculate_age in
collector.py): `if not birth_date_str: return None` (Python `None` and the
empty string are falsy); then parse with strptime, `age = (today -
birth_date).days / 365.25; return round(age, 1)`, with `ValueError` /
`TypeError` from parsing handled by returning `None`.  `today` (the
wall-clock date) is passed explicitly. -/
def calculate_age (birth_date_str : Option String) (today : Date) : Option ℚ :=
  match birth_date_str with
  | none => none
  | some s =>
      if s = "" then none
      else
        match strptimeYmd s with
        | none => none
        | some birth_date =>
            some (round1 (((toOrdinal today : ℤ) - (toOrdinal birth_date : ℤ)) / (1461/4 : ℚ)))

/-- A raw input record as parsed from the JSON file.  Each field is `none`
when the key is absent from the JSON object.  `birth_date` distinguishes
key absence (outer `none`) from a present key holding JSON `null`
(`some none`), which the code passes to `calculate_age` as Python `None`. -/
structure RawRecord where
  body_weight : Option ℚ
  body_height : Option ℚ
  birth_date : Option (Option String)
  water_intake : Option ℚ
  sleep_duration : Option ℚ
deriving DecidableEq, Repr

/-- The empty JSON object `{}`. -/
def emptyRaw : RawRecord := ⟨none, none, none, none, none⟩

/-- The `processed` dict built by `HealthMetrics.process_raw_metrics` in
metrics.py.  `age = none` means the dict has no `age` key at all (the
`birth_date` key was missing from the raw record, so `calculate_age` was
never called); `age = some v` means the key is present with value `v`. -/
structure ProcessedRecord where
  body_weight : Option ℚ
  body_height : Option ℚ
  water_intake : Option ℚ
  sleep_duration : Option ℚ
  age : Option (Option ℚ)
  bmi : Option ℚ
deriving DecidableEq, Repr

/-- metrics.py `HealthMetrics.process_raw_metrics`, instrumented with the
number of `calculate_age` invocations it performs (the sole call site is
guarded by `if birth_date in raw_metrics`). -/
def process_raw_metrics (today : Date) (raw : RawRecord) : ProcessedRecord × ℕ :=
  match raw.birth_date with
  | none =>
      (⟨raw.body_weight, raw.body_height,
        validate_water_intake raw.water_intake,
        validate_sleep_duration raw.sleep_duration,
        none,
        calculate_bmi raw.body_weight raw.body_height⟩, 0)
  | some bd =>
      (⟨raw.body_weight, raw.body_height,
        validate_water_intake raw.water_intake,
        validate_sleep_duration raw.sleep_duration,
        some (calculate_age bd today),
        calculate_bmi raw.body_weight raw.body_height⟩, 1)

/-- The gauge names registered in `HealthMetrics.__init__` (metrics.py). -/
def knownGauges : List String :=
  ["body_weight", "body_height", "age", "bmi", "water_intake", "sleep_duration"]

/-- Gauge registry state: the last value each named gauge was successfully
set to (`none` = never set). -/
def GaugeState : Type := String → Option ℚ

/-- One `Gauge.set` call. -/
def setGauge (st : GaugeState) (n : String) (x : ℚ) : GaugeState :=
  fun m => if m = n then some x else st m

/-- metrics.py `HealthMetrics.update_prometheus_metrics`: iterate the
metrics dict items; `if value is not None and metric_name in self.metrics:
self.metrics[metric_name].set(value)`. -/
def update_prometheus_metrics (st : GaugeState)
    (metrics : List (String × Option ℚ)) : GaugeState :=
  metrics.foldl
    (fun s nv =>
      match nv.2 with
      | some x => if nv.1 ∈ knownGauges then setGauge s nv.1 x else s
      | none => s)
    st

/-- The `metrics` dict built by `HealthTracker.read_metrics` in
collector.py (lines 91-102): keys `body_weight`, `body_height`, `age`
(only when `birth_date` was a key of the raw dict), `bmi`.  As in
`ProcessedRecord`, `age = none` encodes an absent key. -/
structure CollectorMetrics where
  body_weight : Option ℚ
  body_height : Option ℚ
  age : Option (Option ℚ)
  bmi : Option ℚ
deriving DecidableEq, Repr

/-- The items of the collector metrics dict, in insertion order. -/
def centries (m : CollectorMetrics) : List (String × Option ℚ) :=
  [("body_weight", m.body_weight), ("body_height", m.body_height)]
    ++ (match m.age with
        | some a => [("age", a)]
        | none => [])
    ++ [("bmi", m.bmi)]

/-- Python truthiness of the collector metrics dict (`if metrics:` in
`periodic_update`): a dict is truthy iff it is non-empty. -/
def ctruthy (m : CollectorMetrics) : Bool := centries m ≠ []

/-- The pure part of `HealthTracker.read_metrics` on a successfully parsed
raw dict (collector.py lines 91-102). -/
def buildCollectorMetrics (today : Date) (raw : RawRecord) : CollectorMetrics :=
  { body_weight := raw.body_weight
    body_height := raw.body_height
    age := match raw.birth_date with
           | some bd => some (calculate_age bd today)
           | none => none
    bmi := calculate_bmi raw.body_weight raw.body_height }

/-- Observable state of the metrics input file when `read_metrics` runs. -/
inductive FileState
  /-- The metrics file does not exist: `shutil.copy2` raises
  `FileNotFoundError`, handled by returning `None`. -/
  | missing : FileState
  /-- The file exists but `json.load` raises `JSONDecodeError`, handled by
  returning `None`. -/
  | malformed : FileState
  /-- The file exists and parses to the given raw object. -/
  | content (raw : RawRecord) : FileState
deriving DecidableEq

/-- Result of one `HealthTracker.read_metrics` call: the returned value
(`none` for Python `None`) and whether the temporary snapshot copy
`<metrics_file>.tmp` still exists on the filesystem after the call
returns. -/
structure ReadResult where
  result : Option CollectorMetrics
  tempRemains : Bool
deriving DecidableEq

/-- collector.py `HealthTracker.read_metrics` (lines 81-110): copy the
file to `<path>.tmp`, parse the copy, `os.remove` the copy, then build the
metrics dict.  On `FileNotFoundError` the copy was never created; on
`JSONDecodeError` the exception propagates from `json.load` to the
handler, so the `os.remove(temp_file)` statement on line 89 is skipped and
the temporary copy is left behind. -/
def read_metrics (today : Date) (fs : FileState) : ReadResult :=
  match fs with
  | .missing => ⟨none, false⟩
  | .malformed => ⟨none, true⟩
  | .content raw => ⟨some (buildCollectorMetrics today raw), false⟩

/-- A column of the provisioned `health_metrics` table. -/
inductive ColType
  | serialPrimaryKey
  | float
  | timestampDefaultNow
deriving DecidableEq, Repr

/-- Whether a column of this type admits SQL NULL (no column in the
CREATE TABLE statement carries a NOT NULL constraint; the primary key is
implicitly NOT NULL). -/
def ColType.nullable : ColType → Bool
  | .serialPrimaryKey => false
  | .float => true
  | .timestampDefaultNow => true

/-- The CREATE TABLE statement in `HealthTracker.db_operations`
(collector.py lines 134-143). -/
def health_metrics_table : List (String × ColType) :=
  [("id", .serialPrimaryKey),
   ("body_weight", .float),
   ("body_height", .float),
   ("age", .float),
   ("bmi", .float),
   ("created_at", .timestampDefaultNow)]

/-- The column list of the INSERT statement in
`HealthTracker.record_health_metrics` (collector.py lines 155-167). -/
def insert_columns : List String := ["body_weight", "body_height", "age", "bmi"]

/-- A row inserted into `health_metrics`: the four inserted values, each
`none` when the SQL parameter is Python `None` (stored as SQL NULL). -/
structure DbRow where
  body_weight : Option ℚ
  body_height : Option ℚ
  age : Option ℚ
  bmi : Option ℚ
deriving DecidableEq, Repr

/-- The `db_metrics` parameter dict of the INSERT (collector.py lines
169-174): `metrics.get(k)` yields `None` both for an absent key and for a
present key holding `None`. -/
def dbRowOf (m : CollectorMetrics) : DbRow :=
  ⟨m.body_weight, m.body_height, m.age.join, m.bmi⟩

/-- The gauge dict registered in `HealthTracker.__init__` (collector.py
lines 45-50): only four gauges, no `water_intake` or `sleep_duration`. -/
def collectorKnownGauges : List String := ["body_weight", "body_height", "age", "bmi"]

/-- The `Gauge.set` calls performed by the loop at collector.py lines
181-183: one per metrics item whose value is not `None` and whose name is
a key of `self.metrics`. -/
def collectorGaugeSets (m : CollectorMetrics) : List (String × ℚ) :=
  (centries m).filterMap
    (fun nv =>
      match nv.2 with
      | some x => if nv.1 ∈ collectorKnownGauges then some (nv.1, x) else none
      | none => none)

/-- collector.py `HealthTracker.record_health_metrics`: runs
`db_operations` then the INSERT, commit, and the gauge loop; any database
exception is logged and re-raised.  `dbOk` abstracts whether the database
operations succeed this cycle; on success exactly one row is inserted and
the gauge sets are performed. -/
def record_health_metrics (dbOk : Bool) (m : CollectorMetrics) :
    Except Unit (DbRow × List (String × ℚ)) :=
  if dbOk then .ok (dbRowOf m, collectorGaugeSets m) else .error ()

/-- Observable actions of one iteration of the `periodic_update` loop. -/
inductive Action
  /-- the `read_metrics` call -/
  | readA
  /-- the `record_health_metrics` call -/
  | recordA
  /-- the `logger.error` call in the `except` handler -/
  | logErrorA
  /-- a `time.sleep` call with its duration in seconds -/
  | sleepA (secs : ℕ)
deriving DecidableEq, Repr

/-- Outcome of one iteration of the `periodic_update` loop. -/
structure CycleOutcome where
  /-- the actions performed, in order -/
  trace : List Action
  /-- rows inserted into `health_metrics` this iteration -/
  dbRows : List DbRow
  /-- gauge set operations performed this iteration -/
  gaugeSets : List (String × ℚ)
  /-- whether control reaches the top of the `while True` loop again -/
  continues : Bool
deriving DecidableEq

/-- collector.py `HealthTracker.periodic_update` (lines 193-209), one
iteration of the `while True` loop.  `read` is the outcome of the
`read_metrics` call: `.error ()` when it raises an exception that
`read_metrics` itself does not handle (its handlers cover only
`FileNotFoundError` and `JSONDecodeError`), `.ok v` when it returns `v`.
The `try` block sleeps after the work; the `except Exception` handler logs
and then sleeps for the same `update_interval`. -/
def periodic_update_cycle (interval : ℕ)
    (read : Except Unit (Option CollectorMetrics)) (dbOk : Bool) : CycleOutcome :=
  match read with
  | .error _ => ⟨[.readA, .logErrorA, .sleepA interval], [], [], true⟩
  | .ok none => ⟨[.readA, .sleepA interval], [], [], true⟩
  | .ok (some m) =>
      if ctruthy m then
        match record_health_metrics dbOk m with
        | .error _ => ⟨[.readA, .recordA, .logErrorA, .sleepA interval], [], [], true⟩
        | .ok (row, sets) => ⟨[.readA, .recordA, .sleepA interval], [row], sets, true⟩
      else ⟨[.readA, .sleepA interval], [], [], true⟩

/-- Whether an action is a sleep of any duration. -/
def isSleep : Action → Bool
  | .sleepA _ => true
  | _ => false

end HealthTracker

namespace HealthTracker

/-- C3: for all weight > 0 and height > 0, the BMI computation returns
round(weight / (height/100)^2, 1); if weight is 0, height is 0, or either
input is absent, it returns absent; the function is total (the handled
division-by-zero branch is unreachable), so it never raises. -/
theorem C3_bmi_spec (w h : ℚ) (ow oh : Option ℚ)
    (hw : 0 < w) (hh : 0 < h) :
    calculate_bmi (some w) (some h) = some (round1 (w / (h / 100) ^ 2)) ∧
    calculate_bmi (some 0) oh = none ∧
    calculate_bmi ow (some 0) = none ∧
    calculate_bmi none oh = none ∧
    calculate_bmi ow none = none := by
  refine ⟨?_, ?_, ?_, ?_, ?_⟩
  · simp [calculate_bmi, hw.ne', hh.ne']
  · cases oh <;> simp [calculate_bmi]
  · cases ow <;> simp [calculate_bmi]
  · cases oh <;> simp [calculate_bmi]
  · cases ow <;> simp [calculate_bmi]

/-- Witness for C3 at weight 70 kg, height 175 cm: BMI is 22.9, and the
absent / zero cases all yield absent. -/
theorem C3_bmi_spec_witness :
    calculate_bmi (some 70) (some 175) = some (round1 (70 / (175 / 100) ^ 2)) ∧
    calculate_bmi (some 0) (some 175) = none ∧
    calculate_bmi (some 70) (some 0) = none ∧
    calculate_bmi none (some 175) = none ∧
    calculate_bmi (some 70) none = none ∧
    round1 (70 / (175 / 100) ^ 2) = 229 / 10 := by
  obtain ⟨h1, h2, h3, h4, h5⟩ :=
    C3_bmi_spec 70 175 (some 70) (some 175) (by norm_num) (by norm_num)
  exact ⟨h1, h2, h3, h4, h5, by norm_num [round1, roundHalfEven]⟩

/-- C5: the age computation parses its input as a YYYY-MM-DD calendar
date; on success, for a fixed evaluation date today, it returns
(today - birth date) in days divided by 365.25 (= 1461/4), rounded to one
decimal place; for empty, None, or malformed input it returns absent, the
function being total. -/
theorem C5_age_spec (today : Date) (s : String) (b : Date) :
    calculate_age none today = none ∧
    calculate_age (some "") today = none ∧
    (strptimeYmd s = none → calculate_age (some s) today = none) ∧
    (s ≠ "" → strptimeYmd s = some b →
      calculate_age (some s) today =
        some (round1 (((toOrdinal today : ℤ) - (toOrdinal b : ℤ)) / (1461/4 : ℚ)))) := by
  refine ⟨rfl, rfl, ?_, ?_⟩
  · intro hp
    by_cases hs : s = ""
    · simp [calculate_age, hs]
    · simp [calculate_age, hs, hp]
  · intro hs hp
    simp [calculate_age, hs, hp]

/-- Witness for C5: a well-formed birth date evaluated at the fixed date
2026-10-12 yields the rounded day-count quotient (= 36.3), and the
malformed and empty inputs yield absent. -/
theorem C5_age_spec_witness :
    calculate_age none ⟨2026, 10, 12⟩ = none ∧
    calculate_age (some "") ⟨2026, 10, 12⟩ = none ∧
    calculate_age (some "not-a-date") ⟨2026, 10, 12⟩ = none ∧
    calculate_age (some "1990-06-15") ⟨2026, 10, 12⟩ =
      some (round1 (((toOrdinal ⟨2026, 10, 12⟩ : ℤ) - (toOrdinal ⟨1990, 6, 15⟩ : ℤ)) / (1461/4 : ℚ))) ∧
    round1 (((toOrdinal ⟨2026, 10, 12⟩ : ℤ) - (toOrdinal ⟨1990, 6, 15⟩ : ℤ)) / (1461/4 : ℚ)) = 363 / 10 := by
  obtain ⟨h1, h2, h3, -⟩ :=
    C5_age_spec ⟨2026, 10, 12⟩ "not-a-date" ⟨1990, 6, 15⟩
  refine ⟨h1, h2, h3 (by decide), ?_, ?_⟩
  · exact (C5_age_spec ⟨2026, 10, 12⟩ "1990-06-15" ⟨1990, 6, 15⟩).2.2.2
      (by decide) (by decide)
  · have ho : toOrdinal ⟨2026, 10, 12⟩ = 739901 := by decide
    have hb : toOrdinal ⟨1990, 6, 15⟩ = 726633 := by decide
    rw [ho, hb]
    norm_num [round1, roundHalfEven]

/-- C7: the sanitized record computes age only when the birth_date key is
present in the raw record: a missing key skips the computation entirely
(zero parser calls, no age entry in the result); a present key always
calls the parser exactly once and stores its result as the age entry, so a
present-but-invalid value yields an age entry holding absent. -/
theorem C7_age_key_gating (today : Date) (raw : RawRecord) :
    (raw.birth_date = none →
      (process_raw_metrics today raw).1.age = none ∧
      (process_raw_metrics today raw).2 = 0) ∧
    (∀ v, raw.birth_date = some v →
      (process_raw_metrics today raw).2 = 1 ∧
      (process_raw_metrics today raw).1.age = some (calculate_age v today)) := by
  obtain ⟨bw, bh, bd, wi, sd⟩ := raw
  cases bd with
  | none =>
      exact ⟨fun _ => ⟨rfl, rfl⟩, fun v hv => by simp at hv⟩
  | some v₀ =>
      refine ⟨fun hv => by simp at hv, fun v hv => ?_⟩
      simp only [RawRecord.birth_date] at hv
      cases hv
      exact ⟨rfl, rfl⟩

/-- Witness for C7: the empty object yields no age entry and zero parser
calls; a record whose birth_date is the unparseable "not-a-date" yields
one parser call and an age entry holding absent. -/
theorem C7_age_key_gating_witness :
    (process_raw_metrics ⟨2026, 10, 12⟩ emptyRaw).1.age = none ∧
    (process_raw_metrics ⟨2026, 10, 12⟩ emptyRaw).2 = 0 ∧
    (process_raw_metrics ⟨2026, 10, 12⟩
      ⟨none, none, some (some "not-a-date"), none, none⟩).2 = 1 ∧
    (process_raw_metrics ⟨2026, 10, 12⟩
      ⟨none, none, some (some "not-a-date"), none, none⟩).1.age =
      some (calculate_age (some "not-a-date") ⟨2026, 10, 12⟩) ∧
    calculate_age (some "not-a-date") ⟨2026, 10, 12⟩ = none := by
  obtain ⟨h1, h2⟩ :=
    (C7_age_key_gating ⟨2026, 10, 12⟩ emptyRaw).1 rfl
  obtain ⟨h3, h4⟩ :=
    (C7_age_key_gating ⟨2026, 10, 12⟩
      ⟨none, none, some (some "not-a-date"), none, none⟩).2
      (some "not-a-date") rfl
  exact ⟨h1, h2, h3, h4, by decide⟩

/-- C8: pushing a record into the metric registry sets a gauge only for
entries whose name is a known gauge name and whose value is not absent
(so each gauge either keeps its previous value or ends at the value of
such an entry), and a gauge for which the record has no known-name
non-absent entry retains exactly the last value it was set to. -/
theorem C8_gauge_update (st : GaugeState) (ms : List (String × Option ℚ)) (n : String) :
    (update_prometheus_metrics st ms n = st n ∨
      ∃ x, (n, some x) ∈ ms ∧ n ∈ knownGauges ∧
        update_prometheus_metrics st ms n = some x) ∧
    ((∀ v, (n, v) ∈ ms → v = none ∨ n ∉ knownGauges) →
      update_prometheus_metrics st ms n = st n) := by
  induction ms generalizing st with
  | nil => exact ⟨Or.inl rfl, fun _ => rfl⟩
  | cons hd tl ih =>
      obtain ⟨m, v⟩ := hd
      have hstep : ∀ s : GaugeState,
          update_prometheus_metrics s ((m, v) :: tl) =
            update_prometheus_metrics
              (match v with
               | some x => if m ∈ knownGauges then setGauge s m x else s
               | none => s) tl := fun s => rfl
      constructor
      · rw [hstep]
        rcases (ih _).1 with heq | ⟨x, hmem, hkn, hval⟩
        · rw [heq]
          cases v with
          | none => exact Or.inl rfl
          | some x =>
              by_cases hk : m ∈ knownGauges
              · by_cases hnm : n = m
                · subst hnm
                  refine Or.inr ⟨x, List.mem_cons_self _ _, hk, ?_⟩
                  simp [hk, setGauge]
                · simp only [hk, if_pos]
                  left
                  simp [setGauge, hnm]
              · left
                simp [hk]
        · exact Or.inr ⟨x, List.mem_cons_of_mem _ hmem, hkn, hval⟩
      · intro hall
        have hall' : ∀ v', (n, v') ∈ tl → v' = none ∨ n ∉ knownGauges :=
          fun v' hv' => hall v' (List.mem_cons_of_mem _ hv')
        rw [hstep st]
        cases v with
        | none => exact (ih st).2 hall'
        | some x =>
            show update_prometheus_metrics
              (if m ∈ knownGauges then setGauge st m x else st) tl n = st n
            rw [(ih (if m ∈ knownGauges then setGauge st m x else st)).2 hall']
            by_cases hk : m ∈ knownGauges
            · by_cases hnm : n = m
              · subst hnm
                rcases hall (some x) (List.mem_cons_self _ _) with hc | hc
                · exact absurd hc (by simp)
                · exact absurd hk hc
              · simp [hk, setGauge, hnm]
            · simp [hk]

/-- Witness for C8: over a registry where nothing was ever set, a cycle
whose record carries a known name with a value, an unknown name, and a
known name with an absent value sets exactly the first and leaves the
untouched gauge at its prior (unset) state. -/
theorem C8_gauge_update_witness :
    update_prometheus_metrics (fun _ => none)
      [("bmi", some (229/10 : ℚ)), ("unknown", some 1), ("age", none)]
      "sleep_duration" = none ∧
    update_prometheus_metrics (fun _ => none)
      [("bmi", some (229/10 : ℚ)), ("unknown", some 1), ("age", none)]
      "bmi" = some (229/10) := by
  constructor
  · exact (C8_gauge_update (fun _ => none)
      [("bmi", some (229/10 : ℚ)), ("unknown", some 1), ("age", none)]
      "sleep_duration").2
      (by
        intro v hv
        simp only [List.mem_cons, List.not_mem_nil, or_false] at hv
        rcases hv with hv | hv | hv <;> simp_all)
  · rcases (C8_gauge_update (fun _ => none)
      [("bmi", some (229/10 : ℚ)), ("unknown", some 1), ("age", none)]
      "bmi").1 with heq | ⟨x, hmem, -, hval⟩
    · exact absurd heq (by
        simp [update_prometheus_metrics, setGauge, knownGauges])
    · have hx : x = 229/10 := by
        simp only [List.mem_cons, List.not_mem_nil, or_false] at hmem
        rcases hmem with hm | hm | hm <;> simp_all
      rw [hval, hx]

/-- C9 as stated is false: when the snapshot copy parses as malformed
JSON, the handled JSONDecodeError jumps past the os.remove call, so the
temporary copy remains on the filesystem after the call returns. -/
theorem C9_temp_file_counterexample :
    (read_metrics ⟨2026, 10, 12⟩ .malformed).tempRemains = true := rfl

/-- C9 amended: the temporary snapshot copy is deleted immediately after a
successful parse (and is never created when the source file is missing),
but when parsing fails with a handled JSON error the copy remains on the
filesystem after the call returns. -/
theorem C9_temp_file_amended (today : Date) (raw : RawRecord) :
    (read_metrics today (.content raw)).tempRemains = false ∧
    (read_metrics today .missing).tempRemains = false ∧
    (read_metrics today .malformed).tempRemains = true :=
  ⟨rfl, rfl, rfl⟩

/-- C1 as stated is false: the INSERT statement and the provisioned table
in collector.py carry only four metric fields; water_intake and
sleep_duration appear neither among the inserted columns nor among the
table's columns. -/
theorem C1_schema_counterexample :
    "water_intake" ∉ insert_columns ∧
    "sleep_duration" ∉ insert_columns ∧
    "water_intake" ∉ health_metrics_table.map Prod.fst ∧
    "sleep_duration" ∉ health_metrics_table.map Prod.fst := by decide

/-- C1 amended: each cycle's persistence step inserts exactly one row with
the four sanitized fields body_weight, body_height, age, bmi (absent
fields stored as SQL NULL), and the provisioned table's schema has those
four metric columns as nullable floats plus an identity primary key id and
a server-default created_at timestamp. -/
theorem C1_schema_amended (interval : ℕ) (m : CollectorMetrics)
    (h : ctruthy m = true) :
    (periodic_update_cycle interval (.ok (some m)) true).dbRows = [dbRowOf m] ∧
    dbRowOf m = ⟨m.body_weight, m.body_height, m.age.join, m.bmi⟩ ∧
    insert_columns = ["body_weight", "body_height", "age", "bmi"] ∧
    health_metrics_table.map Prod.fst =
      ["id", "body_weight", "body_height", "age", "bmi", "created_at"] ∧
    ("id", ColType.serialPrimaryKey) ∈ health_metrics_table ∧
    ("created_at", ColType.timestampDefaultNow) ∈ health_metrics_table ∧
    (∀ c ∈ insert_columns, (c, ColType.float) ∈ health_metrics_table) ∧
    ColType.float.nullable = true := by
  refine ⟨?_, rfl, rfl, rfl, by decide, by decide, by decide, rfl⟩
  simp [periodic_update_cycle, record_health_metrics, h]

/-- Witness for C1 amended: a record with every field absent is truthy,
and its cycle inserts exactly one all-NULL row. -/
theorem C1_schema_amended_witness :
    ctruthy ⟨none, none, none, none⟩ = true ∧
    (periodic_update_cycle 604800
      (.ok (some ⟨none, none, none, none⟩)) true).dbRows =
      [⟨none, none, none, none⟩] := by
  have h : ctruthy (⟨none, none, none, none⟩ : CollectorMetrics) = true := rfl
  exact ⟨h, (C1_schema_amended 604800 ⟨none, none, none, none⟩ h).1⟩

/-- C2: in every iteration of the periodic_update loop, whatever the
outcome of the read and persistence steps, the loop performs exactly one
sleep and it is for the full configured interval, the sleep is the last
action of the iteration, control returns to the top of the loop, a read
failure is logged and skips the record step, and a persistence failure is
logged; no exception in those steps terminates the loop or shortens or
skips the sleep. -/
theorem C2_failure_isolation (interval : ℕ)
    (read : Except Unit (Option CollectorMetrics)) (dbOk : Bool) :
    (periodic_update_cycle interval read dbOk).continues = true ∧
    (periodic_update_cycle interval read dbOk).trace.getLast? =
      some (.sleepA interval) ∧
    (periodic_update_cycle interval read dbOk).trace.filter isSleep =
      [.sleepA interval] ∧
    (read = .error () →
      Action.recordA ∉ (periodic_update_cycle interval read dbOk).trace ∧
      Action.logErrorA ∈ (periodic_update_cycle interval read dbOk).trace) ∧
    (∀ m, read = .ok (some m) → ctruthy m = true → dbOk = false →
      Action.logErrorA ∈ (periodic_update_cycle interval read dbOk).trace) := by
  rcases read with e | om
  · refine ⟨rfl, rfl, rfl, fun _ => ⟨?_, ?_⟩, fun m hm => by simp at hm⟩
    · simp [periodic_update_cycle]
    · simp [periodic_update_cycle]
  · rcases om with _ | m
    · exact ⟨rfl, rfl, rfl, fun hc => by simp at hc, fun m hm => by simp at hm⟩
    · by_cases ht : ctruthy m
      · cases dbOk with
        | false =>
            refine ⟨?_, ?_, ?_, fun hc => by simp at hc, fun m' hm' _ _ => ?_⟩ <;>
              simp [periodic_update_cycle, record_health_metrics, ht, isSleep,
                List.filter]
        | true =>
            refine ⟨?_, ?_, ?_, fun hc => by simp at hc, fun m' hm' _ hd => ?_⟩
            · simp [periodic_update_cycle, record_health_metrics, ht]
            · simp [periodic_update_cycle, record_health_metrics, ht]
            · simp [periodic_update_cycle, record_health_metrics, ht, isSleep,
                List.filter]
            · exact absurd hd (by simp)
      · have ht' : ctruthy m = false := by simpa using ht
        refine ⟨?_, ?_, ?_, fun hc => by simp at hc, fun m' hm' htm' _ => ?_⟩
        · simp [periodic_update_cycle, ht']
        · simp [periodic_update_cycle, ht']
        · simp [periodic_update_cycle, ht', isSleep, List.filter]
        · cases hm'
          exact absurd htm' (by simp [ht'])

/-- Witness for C2: an iteration whose read step raises still ends in the
full-interval sleep, performs no record step, logs the error, and
continues the loop. -/
theorem C2_failure_isolation_witness :
    (periodic_update_cycle 604800 (.error ()) true).continues = true ∧
    (periodic_update_cycle 604800 (.error ()) true).trace.filter isSleep =
      [.sleepA 604800] ∧
    Action.recordA ∉ (periodic_update_cycle 604800 (.error ()) true).trace ∧
    Action.logErrorA ∈ (periodic_update_cycle 604800 (.error ()) true).trace := by
  obtain ⟨h1, -, h3, h4, -⟩ := C2_failure_isolation 604800 (.error ()) true
  exact ⟨h1, h3, (h4 rfl).1, (h4 rfl).2⟩

/-- C4: when the input file is absent or holds malformed JSON, the read
step returns absent, and the cycle completes with zero database rows, zero
gauge set operations, and control returning to the loop. -/
theorem C4_missing_or_malformed (interval : ℕ) (today : Date) (dbOk : Bool)
    (fs : FileState) (h : fs = .missing ∨ fs = .malformed) :
    (read_metrics today fs).result = none ∧
    (periodic_update_cycle interval
      (.ok (read_metrics today fs).result) dbOk).dbRows = [] ∧
    (periodic_update_cycle interval
      (.ok (read_metrics today fs).result) dbOk).gaugeSets = [] ∧
    (periodic_update_cycle interval
      (.ok (read_metrics today fs).result) dbOk).continues = true := by
  rcases h with h | h <;> subst h <;>
    exact ⟨rfl, rfl, rfl, rfl⟩

/-- Witness for C4 at a missing input file. -/
theorem C4_missing_or_malformed_witness :
    (read_metrics ⟨2026, 10, 12⟩ .missing).result = none ∧
    (periodic_update_cycle 604800
      (.ok (read_metrics ⟨2026, 10, 12⟩ .missing).result) true).dbRows = [] ∧
    (periodic_update_cycle 604800
      (.ok (read_metrics ⟨2026, 10, 12⟩ .missing).result) true).gaugeSets = [] ∧
    (periodic_update_cycle 604800
      (.ok (read_metrics ⟨2026, 10, 12⟩ .missing).result) true).continues = true :=
  C4_missing_or_malformed 604800 ⟨2026, 10, 12⟩ true .missing (Or.inl rfl)

/-- C10: when the input parses as an object with none of the known fields,
the read step returns a mapping that still contains a bmi entry and is
non-empty, so the truthiness check passes, one row is inserted with NULL
in every metric column, and no gauge is set that cycle. -/
theorem C10_empty_object (interval : ℕ) (today : Date) (raw : RawRecord)
    (hbw : raw.body_weight = none) (hbh : raw.body_height = none)
    (hbd : raw.birth_date = none) (hwi : raw.water_intake = none)
    (hsd : raw.sleep_duration = none) :
    (read_metrics today (.content raw)).result =
      some (buildCollectorMetrics today raw) ∧
    ("bmi", calculate_bmi raw.body_weight raw.body_height) ∈
      centries (buildCollectorMetrics today raw) ∧
    centries (buildCollectorMetrics today raw) ≠ [] ∧
    ctruthy (buildCollectorMetrics today raw) = true ∧
    (periodic_update_cycle interval
      (.ok (read_metrics today (.content raw)).result) true).dbRows =
      [⟨none, none, none, none⟩] ∧
    (periodic_update_cycle interval
      (.ok (read_metrics today (.content raw)).result) true).gaugeSets = [] := by
  obtain ⟨bw, bh, bd, wi, sd⟩ := raw
  simp only [RawRecord.body_weight, RawRecord.body_height, RawRecord.birth_date,
    RawRecord.water_intake, RawRecord.sleep_duration] at hbw hbh hbd hwi hsd
  subst hbw hbh hbd hwi hsd
  refine ⟨rfl, ?_, ?_, rfl, rfl, rfl⟩
  · simp [centries, buildCollectorMetrics, calculate_bmi]
  · simp [centries, buildCollectorMetrics]

/-- Witness for C10 at the empty JSON object. -/
theorem C10_empty_object_witness :
    (read_metrics ⟨2026, 10, 12⟩ (.content emptyRaw)).result =
      some (buildCollectorMetrics ⟨2026, 10, 12⟩ emptyRaw) ∧
    ctruthy (buildCollectorMetrics ⟨2026, 10, 12⟩ emptyRaw) = true ∧
    (periodic_update_cycle 604800
      (.ok (read_metrics ⟨2026, 10, 12⟩ (.content emptyRaw)).result) true).dbRows =
      [⟨none, none, none, none⟩] ∧
    (periodic_update_cycle 604800
      (.ok (read_metrics ⟨2026, 10, 12⟩ (.content emptyRaw)).result) true).gaugeSets = [] := by
  obtain ⟨h1, -, -, h4, h5, h6⟩ :=
    C10_empty_object 604800 ⟨2026, 10, 12⟩ emptyRaw rfl rfl rfl rfl rfl
  exact ⟨h1, h4, h5, h6⟩

/-- C6 as stated is false at input 0: 0 is neither missing, negative, nor
greater than 24, so the claim demands round(0, 1) = 0.0, but the Python
falsy guard `not sleep_hours` makes the code return None. -/
theorem C6_sleep_counterexample :
    validate_sleep_duration (some 0) ≠ some (round1 0) ∧
    validate_sleep_duration (some 0) = none := by
  have h : validate_sleep_duration (some 0) = none := rfl
  exact ⟨by simp [h], h⟩

/-- C6 amended: the sleep-duration validator returns absent when the value
is missing, zero, negative, or greater than 24, and otherwise returns the
value rounded to one decimal place. -/
theorem C6_sleep_amended (x : ℚ) :
    validate_sleep_duration none = none ∧
    (x = 0 ∨ x < 0 ∨ 24 < x → validate_sleep_duration (some x) = none) ∧
    (x ≠ 0 → ¬ x < 0 → ¬ 24 < x → validate_sleep_duration (some x) = some (round1 x)) := by
  refine ⟨rfl, ?_, ?_⟩
  · intro hx
    simp [validate_sleep_duration, hx]
  · intro h0 hneg h24
    simp [validate_sleep_duration, h0, hneg, h24]

/-- Witness for C6 amended: 25 and -1 yield absent, and 7.25 rounds to
7.2 (round half to even on the scaled value). -/
theorem C6_sleep_amended_witness :
    validate_sleep_duration (some 25) = none ∧
    validate_sleep_duration (some (-1)) = none ∧
    validate_sleep_duration (some (725/100)) = some (round1 (725/100)) ∧
    round1 (725/100) = 72 / 10 := by
  refine ⟨(C6_sleep_amended 25).2.1 (by norm_num),
          (C6_sleep_amended (-1)).2.1 (by norm_num),
          (C6_sleep_amended (725/100)).2.2 (by norm_num) (by norm_num) (by norm_num),
          by norm_num [round1, roundHalfEven]⟩

end HealthTracker
